import Mathlib

/-!
Verification of the AgentBill Go SDK span tracer and exporter
(`agentbill.go`): the span data model, the attribute value model, the
OTLP encoder and the buffering/flush lifecycle.

Go values of type `interface{}` attached as attributes are modelled by
the tagged union `GoValue`; Go's `map[string]interface{}` is modelled as
a key-unique association list `AttrMap`.  Go maps are reference types
(a `nil` map is a valid value, readable but panicking on write), so
attribute maps live in a `MapHeap` and spans hold an `Option Nat`
reference into it (`none` models a nil map).  Wall-clock reads
(`time.Now().UnixNano()`) are passed in explicitly as `Int` arguments.
HTTP traffic inside `Flush` is modelled by an `ExportResult` oracle, and
the outcome records the requests actually issued.
-/

/-- A Go `interface{}` value attached as a span attribute.  `int` and
`int64` are the two dynamic types the encoder maps to `intValue`; every
other dynamic type is kept in the `other` arm, carrying the `fmt`
default string representation (`%v`) of the underlying value. -/
inductive GoValue where
  | str (s : String)
  | int (n : Int)
  | int64 (n : Int)
  | bool (b : Bool)
  | other (repr : String)
deriving DecidableEq, Repr

/-- A Go `map[string]interface{}` as a key-unique association list. -/
def AttrMap := List (String × GoValue)
deriving DecidableEq

/-- Map lookup: `m[k]`. -/
def mapGet : AttrMap → String → Option GoValue
  | [], _ => none
  | (k', v) :: rest, k => if k' = k then some v else mapGet rest k

/-- Map assignment `m[k] = v`: replaces the binding if the key is
present, otherwise adds one. -/
def mapSet : AttrMap → String → GoValue → AttrMap
  | [], k, v => [(k, v)]
  | (k', v') :: rest, k, v =>
      if k' = k then (k, v) :: rest else (k', v') :: mapSet rest k v

/-- The heap of allocated attribute maps.  A map reference is an index
into `maps`; `none` in a `Option Nat` reference field models Go's nil
map. -/
structure MapHeap where
  maps : List AttrMap
deriving DecidableEq

/-- Dereference a map.  Ranging over a nil or dangling map in Go yields
no entries, hence the empty default. -/
def MapHeap.get (h : MapHeap) (r : Nat) : AttrMap :=
  h.maps.getD r []

/-- Overwrite the map stored at reference `r`. -/
def MapHeap.set (h : MapHeap) (r : Nat) (m : AttrMap) : MapHeap :=
  ⟨h.maps.set r m⟩

/-- The SDK configuration (`Config` in the source). -/
structure Config where
  APIKey : String
  BaseURL : String
  CustomerID : String
  Debug : Bool
deriving DecidableEq

/-- The span status: the Go code stores `map[string]interface{}` holding
a `code` key and, after `SetStatus`, a `message` key. -/
structure SpanStatus where
  code : Int
  message : Option String
deriving DecidableEq

/-- A span (`Span` in the source).  `Attributes` is a reference into
the map heap, since the Go field aliases the caller-supplied map.
`EndTime` uses the Go zero value `0` as the not-yet-ended sentinel. -/
structure Span where
  Name : String
  TraceID : String
  SpanID : String
  Attributes : Option Nat
  StartTime : Int
  EndTime : Int
  Status : SpanStatus
deriving DecidableEq

/-- The tracer (`Tracer` in the source): configuration plus the ordered
span buffer. -/
structure Tracer where
  config : Config
  spans : List Span
deriving DecidableEq

/-- `Tracer.StartSpan(name, attributes)`.  `traceID`/`spanID` stand for
the two fresh UUID draws and `now` for `time.Now().UnixNano()`.  The Go
code assigns `attributes["service.name"]` with no nil check, so a nil
map (`none`) panics: modelled by returning `none`.  Otherwise it writes
the service-name constant and, when the configured customer id is
non-empty, the `customer.id` attribute, directly into the caller's map,
builds the span with status code 0, and appends it to the buffer. -/
def Tracer.StartSpan (heap : MapHeap) (t : Tracer) (name : String)
    (attributes : Option Nat) (traceID spanID : String) (now : Int) :
    Option (MapHeap × Tracer × Span) :=
  match attributes with
  | none => none
  | some r =>
      let m := mapSet (heap.get r) "service.name" (.str "agentbill-go-sdk")
      let m := if t.config.CustomerID ≠ "" then
                 mapSet m "customer.id" (.str t.config.CustomerID)
               else m
      let span : Span :=
        { Name := name, TraceID := traceID, SpanID := spanID,
          Attributes := some r, StartTime := now, EndTime := 0,
          Status := { code := 0, message := none } }
      some (heap.set r m, { t with spans := t.spans ++ [span] }, span)

/-- `Span.SetAttribute(key, value)`: writes through the span's map
reference; a nil map panics (`none`). -/
def Span.SetAttribute (heap : MapHeap) (s : Span) (key : String)
    (value : GoValue) : Option MapHeap :=
  match s.Attributes with
  | none => none
  | some r => some (heap.set r (mapSet (heap.get r) key value))

/-- `Span.SetStatus(code, message)`: replaces the status map with one
holding both keys. -/
def Span.SetStatus (s : Span) (code : Int) (message : String) : Span :=
  { s with Status := { code := code, message := some message } }

/-- `Span.End()`: the source assigns `s.EndTime = time.Now().UnixNano()`
unconditionally, with no already-ended check. -/
def Span.End (s : Span) (now : Int) : Span :=
  { s with EndTime := now }

/-- The character for a single decimal digit. -/
def digitChar (d : Nat) : Char := Char.ofNat (48 + d)

/-- The decimal rendering of a natural number, most significant digit
first: the output of `fmt.Sprintf` with the decimal verb on a
non-negative value. -/
def fmtDec (n : Nat) : List Char :=
  if n = 0 then ['0'] else ((Nat.digits 10 n).map digitChar).reverse

/-- The decimal rendering of a Go `int64`. -/
def fmtDecInt (n : Int) : List Char :=
  if n < 0 then '-' :: fmtDec n.natAbs else fmtDec n.toNat

/-- The numeric value of a decimal digit character, `none` for a
non-digit. -/
def charDigit (c : Char) : Option Nat :=
  if 48 ≤ c.toNat ∧ c.toNat ≤ 57 then some (c.toNat - 48) else none

/-- Parse a non-empty all-digit character list as a decimal natural
number. -/
def parseDec (cs : List Char) : Option Nat :=
  if cs = [] then none
  else if cs.all (fun c => (charDigit c).isSome) then
    some (Nat.ofDigits 10 ((cs.map (fun c => (charDigit c).getD 0)).reverse))
  else none

/-- An OTLP attribute value wrapper: exactly one of the three typed
arms appears in the encoder's output. -/
inductive OTLPValue where
  | stringValue (s : String)
  | intValue (n : Int)
  | boolValue (b : Bool)
deriving DecidableEq, Repr

/-- One `{key, value}` entry of an OTLP attribute list. -/
structure OTLPKV where
  key : String
  value : OTLPValue
deriving DecidableEq, Repr

/-- An encoded span, with the two timestamps rendered as decimal
strings per the OTLP JSON convention. -/
structure OTLPSpan where
  traceId : String
  spanId : String
  name : String
  kind : Int
  startTimeUnixNano : List Char
  endTimeUnixNano : List Char
  attributes : List OTLPKV
  status : SpanStatus
deriving DecidableEq

/-- The `scope` object of a `scopeSpans` entry. -/
structure OTLPScope where
  name : String
  version : String
deriving DecidableEq

/-- One `scopeSpans` entry. -/
structure ScopeSpans where
  scope : OTLPScope
  spans : List OTLPSpan
deriving DecidableEq

/-- The `resource` object carrying the resource attributes. -/
structure OTLPResource where
  attributes : List OTLPKV
deriving DecidableEq

/-- One `resourceSpans` entry. -/
structure ResourceSpans where
  resource : OTLPResource
  scopeSpans : List ScopeSpans
deriving DecidableEq

/-- The whole export document. -/
structure OTLPDoc where
  resourceSpans : List ResourceSpans
deriving DecidableEq

/-- `Tracer.valueToOTLP`: strings, the two integer types and booleans
get their typed wrapper; any other dynamic type falls through to the
default branch, which stringifies it with the `%v` default
representation. -/
def valueToOTLP : GoValue → OTLPValue
  | .str s => .stringValue s
  | .int n => .intValue n
  | .int64 n => .intValue n
  | .bool b => .boolValue b
  | .other r => .stringValue r

/-- `Tracer.spanToOTLP`: encodes one span.  The attribute list is the
span's map rendered entry by entry; `endTime` substitutes the current
timestamp when the span was never ended (`EndTime` still `0`); both
timestamps are rendered as decimal strings. -/
def spanToOTLP (heap : MapHeap) (now : Int) (span : Span) : OTLPSpan :=
  let attributes :=
    ((span.Attributes.map heap.get).getD []).map
      (fun p => { key := p.1, value := valueToOTLP p.2 : OTLPKV })
  let endTime := if span.EndTime = 0 then now else span.EndTime
  { traceId := span.TraceID, spanId := span.SpanID, name := span.Name,
    kind := 1,
    startTimeUnixNano := fmtDecInt span.StartTime,
    endTimeUnixNano := fmtDecInt endTime,
    attributes := attributes, status := span.Status }

/-- `Tracer.buildOTLPPayload`: one resource with the two fixed resource
attributes, one scope with the fixed name and version, and the encoded
spans in buffer order. -/
def buildOTLPPayload (heap : MapHeap) (t : Tracer) (now : Int) : OTLPDoc :=
  { resourceSpans := [
      { resource := { attributes := [
            { key := "service.name",
              value := .stringValue "agentbill-go-sdk" },
            { key := "service.version", value := .stringValue "1.0.0" }] },
        scopeSpans := [
          { scope := { name := "agentbill", version := "1.0.0" },
            spans := t.spans.map (spanToOTLP heap now) }] }] }

/-- The fate of the outbound export request inside `Flush`: request
construction fails, the transport fails, or the collector answers with
an HTTP status code. -/
inductive ExportResult where
  | reqError
  | transportErr
  | status (code : Int)
deriving DecidableEq

/-- What a `Flush` call did: the tracer afterwards, the returned error
(`none` is Go's `nil`), and the export documents actually handed to the
HTTP client, in order. -/
structure FlushOutcome where
  tracer : Tracer
  error : Option String
  requests : List OTLPDoc
deriving DecidableEq

/-- `Tracer.Flush(ctx)`.  An empty buffer returns `nil` at once with no
request.  Otherwise the buffer is encoded and sent (`json.Marshal`
cannot fail on this payload, so that branch is unreachable); a request
construction error or transport error is returned as the error value
with the buffer untouched; a response is always answered with `nil`,
and the buffer is replaced by an empty one exactly when the status code
is 200. -/
def Tracer.Flush (heap : MapHeap) (t : Tracer) (now : Int)
    (res : ExportResult) : FlushOutcome :=
  if t.spans.length = 0 then { tracer := t, error := none, requests := [] }
  else
    let payload := buildOTLPPayload heap t now
    match res with
    | .reqError =>
        { tracer := t, error := some "request construction failed",
          requests := [] }
    | .transportErr =>
        { tracer := t, error := some "transport error",
          requests := [payload] }
    | .status c =>
        { tracer := if c = 200 then { t with spans := [] } else t,
          error := none, requests := [payload] }

/-- Looking up the key just assigned yields the assigned value. -/
theorem mapGet_mapSet_self (m : AttrMap) (k : String) (v : GoValue) :
    mapGet (mapSet m k v) k = some v := by
  induction m with
  | nil => simp [mapSet, mapGet]
  | cons p rest ih =>
      obtain ⟨a, b⟩ := p
      by_cases h : a = k
      · simp [mapSet, h, mapGet]
      · simp [mapSet, h, mapGet, ih]

/-- Assigning one key leaves the others unchanged. -/
theorem mapGet_mapSet_ne (m : AttrMap) (k k' : String) (v : GoValue)
    (h : k' ≠ k) : mapGet (mapSet m k v) k' = mapGet m k' := by
  have h2 : ¬ k = k' := fun e => h e.symm
  induction m with
  | nil => simp [mapSet, mapGet, h2]
  | cons p rest ih =>
      obtain ⟨a, b⟩ := p
      by_cases hp : a = k
      · subst hp
        simp [mapSet, mapGet, h2]
      · by_cases hp' : a = k' <;> simp [mapSet, hp, mapGet, hp', ih, h]

/-- Reading back a heap cell that was just overwritten in bounds. -/
theorem MapHeap.get_set_self (h : MapHeap) (r : Nat) (m : AttrMap)
    (hr : r < h.maps.length) : (h.set r m).get r = m := by
  simp [MapHeap.set, MapHeap.get, List.getD, List.getElem?_set_self', hr]

/-- Claim C1: when the export request fails in transport or the
collector answers with a non-200 status, the span buffer after `Flush`
is exactly the span buffer before it, element for element and in
order. -/
theorem C1_flush_failure_preserves_buffer (heap : MapHeap) (t : Tracer)
    (now : Int) (res : ExportResult)
    (h : res = .transportErr ∨ ∃ c, res = .status c ∧ c ≠ 200) :
    (Tracer.Flush heap t now res).tracer.spans = t.spans := by
  rcases h with rfl | ⟨c, rfl, hne⟩
  · by_cases hlen : t.spans = [] <;> simp [Tracer.Flush, hlen]
  · by_cases hlen : t.spans = [] <;> simp [Tracer.Flush, hlen, hne]

/-- Claim C1 witness: a one-span buffer flushed into an HTTP 500
response is left intact. -/
theorem C1_witness :
    (Tracer.Flush ⟨[[("model", .str "gpt-4")]]⟩
        { config := ⟨"key", "https://example.test", "cust-1", false⟩,
          spans := [⟨"op", "trace-1", "span-1", some 0, 5, 9, ⟨0, none⟩⟩] }
        11 (.status 500)).tracer.spans
      = [⟨"op", "trace-1", "span-1", some 0, 5, 9, ⟨0, none⟩⟩] :=
  C1_flush_failure_preserves_buffer _ _ _ _ (Or.inr ⟨500, rfl, by decide⟩)

/-- Claim C2: a `Flush` answered with HTTP 200 leaves the buffer empty,
and any subsequent `Flush` of the now-empty buffer is a no-op: it
issues no request, returns `nil` and keeps the tracer unchanged. -/
theorem C2_flush_success_clears (heap heap' : MapHeap) (t : Tracer)
    (now now' : Int) (res' : ExportResult) :
    (Tracer.Flush heap t now (.status 200)).tracer.spans = [] ∧
    Tracer.Flush heap' (Tracer.Flush heap t now (.status 200)).tracer now' res'
      = { tracer := (Tracer.Flush heap t now (.status 200)).tracer,
          error := none, requests := [] } := by
  have h1 : (Tracer.Flush heap t now (.status 200)).tracer.spans = [] := by
    by_cases hlen : t.spans = [] <;> simp [Tracer.Flush, hlen]
  refine ⟨h1, ?_⟩
  generalize hT : (Tracer.Flush heap t now (.status 200)).tracer = t' at h1 ⊢
  simp [Tracer.Flush, h1]

/-- Claim C7: a non-2xx response is not surfaced as an error — `Flush`
returns `nil` — while the buffer is still not cleared. -/
theorem C7_flush_non2xx_not_error (heap : MapHeap) (t : Tracer)
    (now : Int) (c : Int) (h : c < 200 ∨ 299 < c) :
    (Tracer.Flush heap t now (.status c)).error = none ∧
    (Tracer.Flush heap t now (.status c)).tracer.spans = t.spans := by
  have hne : c ≠ 200 := by omega
  by_cases hlen : t.spans = [] <;> simp [Tracer.Flush, hlen, hne]

/-- Claim C7 witness: flushing one span into an HTTP 503 response
returns `nil` and keeps the span. -/
theorem C7_witness :
    (Tracer.Flush ⟨[[]]⟩
        { config := ⟨"key", "https://example.test", "", true⟩,
          spans := [⟨"op", "trace-2", "span-2", some 0, 3, 0, ⟨0, none⟩⟩] }
        8 (.status 503)).error = none ∧
    (Tracer.Flush ⟨[[]]⟩
        { config := ⟨"key", "https://example.test", "", true⟩,
          spans := [⟨"op", "trace-2", "span-2", some 0, 3, 0, ⟨0, none⟩⟩] }
        8 (.status 503)).tracer.spans
      = [⟨"op", "trace-2", "span-2", some 0, 3, 0, ⟨0, none⟩⟩] :=
  C7_flush_non2xx_not_error _ _ _ 503 (Or.inr (by decide))

/-- Claim C8: flushing an empty buffer issues no outbound request and
returns success with the tracer unchanged. -/
theorem C8_flush_empty_noop (heap : MapHeap) (t : Tracer) (now : Int)
    (res : ExportResult) (h : t.spans = []) :
    Tracer.Flush heap t now res
      = { tracer := t, error := none, requests := [] } := by
  simp [Tracer.Flush, h]

/-- Claim C8 witness: an empty tracer flushed into a transport failure
still reports success and no request. -/
theorem C8_witness :
    Tracer.Flush ⟨[]⟩
        { config := ⟨"key", "https://example.test", "cust-1", false⟩,
          spans := [] } 4 .transportErr
      = { tracer := { config := ⟨"key", "https://example.test", "cust-1",
                        false⟩, spans := [] },
          error := none, requests := [] } :=
  C8_flush_empty_noop _ _ _ _ rfl

/-- Claim C3 counterexample: `End` is not an already-ended no-op — a
span ended at time 5 and ended again at time 7 carries end time 7, not
the unchanged 5 the claim requires. -/
theorem C3_counterexample :
    (Span.End (Span.End ⟨"op", "trace-3", "span-3", some 0, 1, 0, ⟨0, none⟩⟩
        5) 7).EndTime = 7 ∧ (7 : Int) ≠ 5 :=
  ⟨rfl, by decide⟩

/-- Claim C3 as amended: `End` assigns the current timestamp to
`end_time` unconditionally on every call, leaving the other fields
alone; a second call therefore overwrites `end_time` with the second
call's timestamp instead of being a no-op. -/
theorem C3_end_overwrites (s : Span) (t1 t2 : Int) :
    (Span.End s t1).EndTime = t1 ∧
    (Span.End s t1).StartTime = s.StartTime ∧
    (Span.End (Span.End s t1) t2).EndTime = t2 :=
  ⟨rfl, rfl, rfl⟩

/-- Claim C6: every `StartSpan` call on a non-nil attributes map appends
exactly one span to the buffer; the map then holds the fixed
service-name constant unconditionally; it holds the configured customer
id under `customer.id` exactly when that id is non-empty (when empty,
`StartSpan` leaves the `customer.id` binding as the caller supplied
it); and the new span carries status code 0. -/
theorem C6_startSpan_appends_and_injects (heap : MapHeap) (t : Tracer)
    (name : String) (r : Nat) (traceID spanID : String) (now : Int)
    (hr : r < heap.maps.length) :
    ∃ heap' t' sp,
      Tracer.StartSpan heap t name (some r) traceID spanID now
        = some (heap', t', sp) ∧
      t'.spans = t.spans ++ [sp] ∧
      mapGet (heap'.get r) "service.name"
        = some (.str "agentbill-go-sdk") ∧
      (t.config.CustomerID ≠ "" →
        mapGet (heap'.get r) "customer.id"
          = some (.str t.config.CustomerID)) ∧
      (t.config.CustomerID = "" →
        mapGet (heap'.get r) "customer.id"
          = mapGet (heap.get r) "customer.id") ∧
      sp.Status.code = 0 := by
  by_cases hc : t.config.CustomerID = ""
  · refine ⟨heap.set r (mapSet (heap.get r) "service.name"
        (.str "agentbill-go-sdk")),
      { t with spans := t.spans ++
          [⟨name, traceID, spanID, some r, now, 0, ⟨0, none⟩⟩] },
      ⟨name, traceID, spanID, some r, now, 0, ⟨0, none⟩⟩,
      by simp [Tracer.StartSpan, hc], rfl, ?_, ?_, ?_, rfl⟩
    · rw [MapHeap.get_set_self _ _ _ hr]
      exact mapGet_mapSet_self _ _ _
    · exact fun hne => absurd hc hne
    · intro _
      rw [MapHeap.get_set_self _ _ _ hr]
      exact mapGet_mapSet_ne _ _ _ _ (by decide)
  · refine ⟨heap.set r (mapSet (mapSet (heap.get r) "service.name"
        (.str "agentbill-go-sdk")) "customer.id"
        (.str t.config.CustomerID)),
      { t with spans := t.spans ++
          [⟨name, traceID, spanID, some r, now, 0, ⟨0, none⟩⟩] },
      ⟨name, traceID, spanID, some r, now, 0, ⟨0, none⟩⟩,
      by simp [Tracer.StartSpan, hc], rfl, ?_, ?_, ?_, rfl⟩
    · rw [MapHeap.get_set_self _ _ _ hr,
        mapGet_mapSet_ne _ _ _ _ (by decide)]
      exact mapGet_mapSet_self _ _ _
    · intro _
      rw [MapHeap.get_set_self _ _ _ hr]
      exact mapGet_mapSet_self _ _ _
    · exact fun he => absurd he hc

/-- Claim C6 witness: with a configured customer id and an empty
non-nil caller map, `StartSpan` appends one span whose map holds both
injected attributes and whose status code is 0. -/
theorem C6_witness :
    ∃ heap' t' sp,
      Tracer.StartSpan ⟨[[]]⟩
          { config := ⟨"key", "https://example.test", "cust-1", false⟩,
            spans := [] }
          "openai.chat.completion" (some 0) "trace-6" "span-6" 2
        = some (heap', t', sp) ∧
      t'.spans = [] ++ [sp] ∧
      mapGet (heap'.get 0) "service.name"
        = some (.str "agentbill-go-sdk") ∧
      mapGet (heap'.get 0) "customer.id" = some (.str "cust-1") ∧
      sp.Status.code = 0 := by
  obtain ⟨heap', t', sp, h1, h2, h3, h4, _, h6⟩ :=
    C6_startSpan_appends_and_injects ⟨[[]]⟩
      { config := ⟨"key", "https://example.test", "cust-1", false⟩,
        spans := [] }
      "openai.chat.completion" 0 "trace-6" "span-6" 2 (by decide)
  exact ⟨heap', t', sp, h1, h2, h3, h4 (by decide), h6⟩

/-- Claim C10: `StartSpan` keeps the caller-supplied map itself as the
span's attribute store — the returned span's `Attributes` is the very
reference the caller passed, and the injected service-name write is
visible through that reference — while a nil attributes map makes
`StartSpan` panic (modelled as `none`) instead of being treated as an
empty map. -/
theorem C10_startSpan_aliases_caller_map (heap : MapHeap) (t : Tracer)
    (name traceID spanID : String) (now : Int) (r : Nat)
    (hr : r < heap.maps.length) :
    (∃ heap' t' sp,
      Tracer.StartSpan heap t name (some r) traceID spanID now
        = some (heap', t', sp) ∧
      sp.Attributes = some r ∧
      heap'.maps.length = heap.maps.length ∧
      mapGet (heap'.get r) "service.name"
        = some (.str "agentbill-go-sdk")) ∧
    Tracer.StartSpan heap t name none traceID spanID now = none := by
  refine ⟨?_, rfl⟩
  by_cases hc : t.config.CustomerID = ""
  · refine ⟨heap.set r (mapSet (heap.get r) "service.name"
        (.str "agentbill-go-sdk")),
      { t with spans := t.spans ++
          [⟨name, traceID, spanID, some r, now, 0, ⟨0, none⟩⟩] },
      ⟨name, traceID, spanID, some r, now, 0, ⟨0, none⟩⟩,
      by simp [Tracer.StartSpan, hc], rfl, ?_, ?_⟩
    · simp [MapHeap.set]
    · rw [MapHeap.get_set_self _ _ _ hr]
      exact mapGet_mapSet_self _ _ _
  · refine ⟨heap.set r (mapSet (mapSet (heap.get r) "service.name"
        (.str "agentbill-go-sdk")) "customer.id"
        (.str t.config.CustomerID)),
      { t with spans := t.spans ++
          [⟨name, traceID, spanID, some r, now, 0, ⟨0, none⟩⟩] },
      ⟨name, traceID, spanID, some r, now, 0, ⟨0, none⟩⟩,
      by simp [Tracer.StartSpan, hc], rfl, ?_, ?_⟩
    · simp [MapHeap.set]
    · rw [MapHeap.get_set_self _ _ _ hr,
        mapGet_mapSet_ne _ _ _ _ (by decide)]
      exact mapGet_mapSet_self _ _ _

/-- Claim C10 witness: on a one-cell heap the span returned for
reference 0 aliases that reference, the injection is visible through
it, and the nil-map call panics. -/
theorem C10_witness :
    (∃ heap' t' sp,
      Tracer.StartSpan ⟨[[("model", GoValue.str "gpt-4")]]⟩
          { config := ⟨"key", "https://example.test", "", false⟩,
            spans := [] } "op" (some 0) "trace-10" "span-10" 3
        = some (heap', t', sp) ∧
      sp.Attributes = some 0 ∧
      heap'.maps.length
        = (⟨[[("model", GoValue.str "gpt-4")]]⟩ : MapHeap).maps.length ∧
      mapGet (heap'.get 0) "service.name"
        = some (.str "agentbill-go-sdk")) ∧
    Tracer.StartSpan ⟨[[("model", GoValue.str "gpt-4")]]⟩
        { config := ⟨"key", "https://example.test", "", false⟩,
          spans := [] } "op" none "trace-10" "span-10" 3 = none :=
  C10_startSpan_aliases_caller_map _ _ "op" "trace-10" "span-10" 3 0
    (by decide)

/-- Claim C4 counterexample: attaching a value of a type other than
string, integer or boolean does not convert it at the point of
attachment — the span's map stores the dynamic value itself (the
`other` arm), which is not the string value the claim requires. -/
theorem C4_counterexample :
    Span.SetAttribute ⟨[[]]⟩
        ⟨"op", "trace-4", "span-4", some 0, 1, 0, ⟨0, none⟩⟩
        "latency" (.other "1.5")
      = some ⟨[[("latency", GoValue.other "1.5")]]⟩ ∧
    mapGet [("latency", GoValue.other "1.5")] "latency"
      = some (.other "1.5") ∧
    GoValue.other "1.5" ≠ GoValue.str "1.5" :=
  ⟨rfl, rfl, by decide⟩

/-- Claim C4 as amended: `SetAttribute` stores every value unchanged,
with its dynamic type, and the conversion of a value outside
string/int/int64/bool to its default string representation happens at
encoding time, in the `valueToOTLP` fallback arm. -/
theorem C4_stored_raw_stringified_at_encoding (heap : MapHeap)
    (s : Span) (r : Nat) (key rep : String) (v : GoValue)
    (h : s.Attributes = some r) (hr : r < heap.maps.length) :
    (∃ heap', Span.SetAttribute heap s key v = some heap' ∧
        mapGet (heap'.get r) key = some v) ∧
    valueToOTLP (.other rep) = .stringValue rep := by
  refine ⟨⟨heap.set r (mapSet (heap.get r) key v), ?_, ?_⟩, rfl⟩
  · simp [Span.SetAttribute, h]
  · rw [MapHeap.get_set_self _ _ _ hr]
    exact mapGet_mapSet_self _ _ _

/-- Claim C4 amended witness: a concrete non-primitive value is stored
as itself and its encoder image is the stringified wrapper. -/
theorem C4_witness :
    (∃ heap', Span.SetAttribute ⟨[[]]⟩
        ⟨"op", "trace-4b", "span-4b", some 0, 1, 0, ⟨0, none⟩⟩
        "payload" (GoValue.other "[1 2 3]") = some heap' ∧
        mapGet (heap'.get 0) "payload"
          = some (GoValue.other "[1 2 3]")) ∧
    valueToOTLP (.other "map[a:1]") = .stringValue "map[a:1]" :=
  C4_stored_raw_stringified_at_encoding ⟨[[]]⟩
    ⟨"op", "trace-4b", "span-4b", some 0, 1, 0, ⟨0, none⟩⟩
    0 "payload" "map[a:1]" (GoValue.other "[1 2 3]") rfl (by decide)

/-- Claim C9: the encoder output is exactly one resource carrying the
two fixed resource attributes, containing exactly one scope with the
fixed name and version, whose span list is the encoded image of the
buffer, one entry per buffered span in buffer order. -/
theorem C9_payload_structure (heap : MapHeap) (t : Tracer) (now : Int) :
    buildOTLPPayload heap t now
      = { resourceSpans := [
          { resource := { attributes := [
                ⟨"service.name", .stringValue "agentbill-go-sdk"⟩,
                ⟨"service.version", .stringValue "1.0.0"⟩] },
            scopeSpans := [
              { scope := ⟨"agentbill", "1.0.0"⟩,
                spans := t.spans.map (spanToOTLP heap now) }] }] } ∧
    (t.spans.map (spanToOTLP heap now)).length = t.spans.length ∧
    ∀ i : Nat, (t.spans.map (spanToOTLP heap now))[i]?
        = (t.spans[i]?).map (spanToOTLP heap now) := by
  refine ⟨rfl, List.length_map _ _, fun i => ?_⟩
  simp

/-- Digit characters decode back to the digit they encode. -/
theorem charDigit_digitChar (d : Nat) (h : d < 10) :
    charDigit (digitChar d) = some d := by
  interval_cases d <;> decide

/-- Decoding the character image of a digit list recovers the list,
and every character in the image is a digit character. -/
theorem map_digitChar_roundtrip (ds : List Nat) (h : ∀ d ∈ ds, d < 10) :
    ((ds.map digitChar).map (fun c => (charDigit c).getD 0) = ds) ∧
    (∀ c ∈ ds.map digitChar, (charDigit c).isSome) := by
  induction ds with
  | nil => simp
  | cons d rest ih =>
      have hd : d < 10 := h d (by simp)
      have hrest := ih (fun x hx => h x (by simp [hx]))
      constructor
      · simp [charDigit_digitChar d hd, hrest.1]
      · intro c hc
        simp only [List.map_cons, List.mem_cons] at hc
        rcases hc with rfl | hc'
        · simp [charDigit_digitChar d hd]
        · exact hrest.2 c hc'

/-- Parsing the decimal rendering of a natural number gives it back. -/
theorem parseDec_fmtDec (n : Nat) : parseDec (fmtDec n) = some n := by
  by_cases h0 : n = 0
  · subst h0
    simp [fmtDec, parseDec, charDigit, Nat.ofDigits]
  · have hds : Nat.digits 10 n ≠ [] := Nat.digits_ne_nil_iff_ne_zero.mpr h0
    have hlt : ∀ d ∈ Nat.digits 10 n, d < 10 :=
      fun d hd => Nat.digits_lt_base (by norm_num) hd
    obtain ⟨hmap, hall⟩ := map_digitChar_roundtrip _ hlt
    rw [fmtDec, if_neg h0, parseDec]
    have h1 : ((Nat.digits 10 n).map digitChar).reverse ≠ [] := by
      simpa using hds
    rw [if_neg h1]
    have h2 : (((Nat.digits 10 n).map digitChar).reverse).all
        (fun c => (charDigit c).isSome) = true := by
      rw [List.all_eq_true]
      intro c hc
      exact hall c (List.mem_reverse.mp hc)
    rw [if_pos h2]
    have h3 : (((Nat.digits 10 n).map digitChar).reverse).map
          (fun c => (charDigit c).getD 0)
        = (Nat.digits 10 n).reverse := by
      rw [List.map_reverse, hmap]
    rw [h3, List.reverse_reverse, Nat.ofDigits_digits]

/-- Parsing the decimal rendering of a non-negative `int64` gives its
natural value. -/
theorem parseDec_fmtDecInt (n : Int) (h : 0 ≤ n) :
    parseDec (fmtDecInt n) = some n.toNat := by
  rw [fmtDecInt, if_neg (by omega)]
  exact parseDec_fmtDec n.toNat

/-- Claim C5: under a sane clock (positive span start times not after
the encoding instant, and end times, when set, not before their start
times), every span in the encoder's output has decimal timestamps that
parse back to integers with a nonzero end time at least the start
time; and a span whose end time is still unset is encoded with the
current timestamp substituted for it. -/
theorem C5_encoded_end_nonzero_ge_start (heap : MapHeap) (t : Tracer)
    (now : Int)
    (hok : ∀ sp ∈ t.spans, 0 < sp.StartTime ∧ sp.StartTime ≤ now ∧
        (sp.EndTime = 0 ∨ sp.StartTime ≤ sp.EndTime)) :
    (∀ rs ∈ (buildOTLPPayload heap t now).resourceSpans,
      ∀ ss ∈ rs.scopeSpans, ∀ o ∈ ss.spans,
        ∃ st en,
          parseDec o.startTimeUnixNano = some st ∧
          parseDec o.endTimeUnixNano = some en ∧
          en ≠ 0 ∧ st ≤ en) ∧
    (∀ sp ∈ t.spans, sp.EndTime = 0 →
      (spanToOTLP heap now sp).endTimeUnixNano = fmtDecInt now) := by
  constructor
  · intro rs hrs ss hss o ho
    simp only [buildOTLPPayload, List.mem_singleton] at hrs
    subst hrs
    simp only [List.mem_singleton] at hss
    subst hss
    simp only [List.mem_map] at ho
    obtain ⟨sp, hsp, rfl⟩ := ho
    obtain ⟨h1, h2, h3⟩ := hok sp hsp
    have hse : sp.StartTime ≤ (if sp.EndTime = 0 then now else sp.EndTime)
        ∧ 0 < (if sp.EndTime = 0 then now else sp.EndTime) := by
      rcases h3 with h3 | h3
      · simp [h3]; omega
      · by_cases hz : sp.EndTime = 0 <;> simp [hz] <;> omega
    refine ⟨sp.StartTime.toNat,
      (if sp.EndTime = 0 then now else sp.EndTime).toNat, ?_, ?_, ?_, ?_⟩
    · exact parseDec_fmtDecInt _ (by omega)
    · exact parseDec_fmtDecInt _ (by omega)
    · omega
    · omega
  · intro sp _ hz
    simp [spanToOTLP, hz]

/-- Claim C5 witness: a buffer holding one ended span and one
never-ended span, encoded at instant 11, satisfies both parts. -/
theorem C5_witness :
    (∀ rs ∈ (buildOTLPPayload ⟨[[], []]⟩
        { config := ⟨"key", "https://example.test", "", false⟩,
          spans := [⟨"a", "t5a", "s5a", some 0, 3, 9, ⟨0, none⟩⟩,
                    ⟨"b", "t5b", "s5b", some 1, 5, 0, ⟨0, none⟩⟩] }
        11).resourceSpans,
      ∀ ss ∈ rs.scopeSpans, ∀ o ∈ ss.spans,
        ∃ st en,
          parseDec o.startTimeUnixNano = some st ∧
          parseDec o.endTimeUnixNano = some en ∧
          en ≠ 0 ∧ st ≤ en) ∧
    (∀ sp ∈ [(⟨"a", "t5a", "s5a", some 0, 3, 9, ⟨0, none⟩⟩ : Span),
             ⟨"b", "t5b", "s5b", some 1, 5, 0, ⟨0, none⟩⟩],
      sp.EndTime = 0 →
      (spanToOTLP ⟨[[], []]⟩ 11 sp).endTimeUnixNano = fmtDecInt 11) :=
  C5_encoded_end_nonzero_ge_start ⟨[[], []]⟩
    { config := ⟨"key", "https://example.test", "", false⟩,
      spans := [⟨"a", "t5a", "s5a", some 0, 3, 9, ⟨0, none⟩⟩,
                ⟨"b", "t5b", "s5b", some 1, 5, 0, ⟨0, none⟩⟩] }
    11 (by decide)
